import Mathlib

/-!
Shallow embedding of the `gemini-chat` edge function
(`supabase/functions/gemini-chat/index.ts`, lines 1-279): a stateless HTTP
handler that validates a chat request, assembles a bounded prompt window,
calls an upstream generative-text API, and falls back to canned
keyword-matched responses on any upstream failure.

Modelling choices:
- JS strings become Lean `String`; a possibly-`undefined` field becomes
  `Option String`.
- The upstream `fetch` outcome is an oracle parameter (`UpstreamResult`):
  the network call either throws, resolves non-ok, or resolves ok with a
  JSON document whose `candidates` shape is modelled structurally
  (a missing `candidates` field behaves exactly like an empty array at the
  only place it is read, so both are modelled as `[]`).
- The handler result records the HTTP response, the number of upstream
  calls performed, and the `contents` payload sent upstream (if any).
- JS `toLowerCase`/`includes`/`trim` are modelled for the ASCII strings the
  handler actually manipulates.
-/

namespace GeminiChat

/-- ASCII lowercasing, modelling `String.prototype.toLowerCase` on the
ASCII inputs used here. -/
def strToLower (s : String) : String :=
  String.mk (s.toList.map Char.toLower)

/-- Does the needle occur at the head of the haystack? -/
def startsWithList : List Char → List Char → Bool
  | [], _ => true
  | _ :: _, [] => false
  | n :: ns, h :: hs => n = h && startsWithList ns hs

/-- Does the needle occur anywhere in the haystack? -/
def occursIn (needle : List Char) : List Char → Bool
  | [] => needle.isEmpty
  | h :: hs => startsWithList needle (h :: hs) || occursIn needle hs

/-- Substring containment, modelling `String.prototype.includes`. -/
def strIncludes (hay needle : String) : Bool :=
  occursIn needle.toList hay.toList

/-- Drop leading whitespace characters. -/
def dropLeadWS : List Char → List Char
  | [] => []
  | c :: cs => if c.isWhitespace then dropLeadWS cs else c :: cs

/-- Whitespace stripping at both ends, modelling `String.prototype.trim`. -/
def strTrim (s : String) : String :=
  String.mk (((dropLeadWS s.toList).reverse |> dropLeadWS).reverse)

/-- One element of the request's `messages` array.  `role` is kept as a raw
string because the handler never validates it (`undefined` behaves like any
string other than `"user"` at the single place `role` is read); `content`
is `Option` because the handler tolerates its absence via `?.`/`||`. -/
structure Msg where
  role : String
  content : Option String
deriving DecidableEq

/-- The `messages` field of the parsed body: absent, present but not an
array, or an array. -/
inductive MessagesField
  | missing
  | notArray
  | array (msgs : List Msg)
deriving DecidableEq

/-- The request body: `req.json()` either throws (malformed JSON) or
yields an object from which `messages` and `userLocation` are
destructured. -/
inductive ReqBody
  | malformed (errMsg : String)
  | parsed (messages : MessagesField) (userLocation : Option String)
deriving DecidableEq

/-- An incoming HTTP request, as far as the handler inspects it. -/
structure Request where
  method : String
  body : ReqBody
deriving DecidableEq

/-- One part of a Gemini-format message (`{ text: ... }`). -/
structure GPart where
  text : Option String
deriving DecidableEq

/-- One Gemini-format message (`{ role, parts }`). -/
structure GMessage where
  role : String
  parts : List GPart
deriving DecidableEq

/-- `candidates[i].content.parts[j]` of the upstream JSON. -/
structure Part where
  text : Option String
deriving DecidableEq

/-- `candidates[i].content` of the upstream JSON. -/
structure CandContent where
  parts : List Part
deriving DecidableEq

/-- One element of `candidates`; `content` may be absent. -/
structure Candidate where
  content : Option CandContent
deriving DecidableEq

/-- The upstream response document.  A missing `candidates` field is
modelled as `[]`: the code reads it only through
`!geminiData.candidates || !geminiData.candidates[0]`, where `undefined`
and `[]` behave identically. -/
structure GeminiData where
  candidates : List Candidate
deriving DecidableEq

/-- Outcome of the single `fetch` to the upstream API. -/
inductive UpstreamResult
  | throws (errMsg : String)
  | notOk (status : Nat) (errorText : String)
  | ok (data : GeminiData)
deriving DecidableEq

/-- The JSON body the handler serialises: any subset of the fields
`error`, `response`, `success`, `details`. -/
structure RespBody where
  error : Option String
  response : Option String
  success : Option Bool
  details : Option String
deriving DecidableEq

/-- An outgoing HTTP response; `body = none` models `new Response(null)`. -/
structure HttpResponse where
  status : Nat
  headers : List (String × String)
  body : Option RespBody
deriving DecidableEq

/-- What one invocation of the handler produced: the HTTP response, how
many upstream calls it performed, and the `contents` payload it sent
upstream (when it called at all). -/
structure Outcome where
  resp : HttpResponse
  upstreamCalls : Nat
  sentContents : Option (List GMessage)
deriving DecidableEq

/-- `corsHeaders` (index.ts lines 4-8). -/
def corsHeaders : List (String × String) :=
  [("Access-Control-Allow-Origin", "*"),
   ("Access-Control-Allow-Headers", "authorization, x-client-info, apikey, content-type"),
   ("Access-Control-Allow-Methods", "POST, OPTIONS")]

/-- `{ ...corsHeaders, 'Content-Type': 'application/json' }`. -/
def jsonHeaders : List (String × String) :=
  corsHeaders ++ [("Content-Type", "application/json")]

/-- The known placeholder credential (index.ts line 65). -/
def placeholderKey : String := "your_actual_gemini_api_key_here"

/-- The `error` string of the not-configured branch (line 69). -/
def notConfiguredError : String :=
  "Gemini API key not configured. Please add your API key to the .env file."

/-- The `response` text of the not-configured branch (line 70). -/
def notConfiguredText : String :=
  "I apologize, but the AI service is not properly configured. Please contact the administrator to set up the Gemini API key. In the meantime, I can provide some basic Konkan travel information! 🏖️"

/-- The fallback text of the outermost catch (line 242). -/
def catchFallbackText : String :=
  "I\x27m sorry, I\x27m experiencing some technical difficulties. Please try again in a moment! In the meantime, I\x27d love to help you plan your Konkan adventure - ask me about beaches, food, or activities! 🏖️"

/-- Canned beach-group answer (line 263). -/
def beachText : String :=
  "🏖️ The Konkan coast has some of India\x27s most pristine beaches! Tarkarli Beach is famous for its crystal-clear waters and water sports. Malvan Beach offers excellent scuba diving opportunities. For a peaceful experience, try Vengurla or Devbagh beaches. The best time to visit is October to March when the weather is pleasant."

/-- Canned food-group answer (line 267). -/
def foodText : String :=
  "🍽️ Malvani cuisine is a treat for seafood lovers! Must-try dishes include Koliwada prawns, fish curry with coconut, sol kadhi (kokum drink), and modak. Don\x27t miss the famous Malvani fish thali. Popular restaurants include Chaitanya Restaurant in Malvan and Athithi Bamboo in Tarkarli."

/-- Canned fort/history-group answer (line 271). -/
def fortText : String :=
  "🏰 Sindhudurg Fort is a magnificent sea fort built by Chhatrapati Shivaji Maharaj in 1664. It\x27s located on a rocky island and showcases brilliant Maratha architecture. The fort has temples, freshwater wells, and offers stunning sea views. Entry fee is ₹25 for Indians. Best visited during early morning or evening."

/-- Canned timing/season-group answer (line 275). -/
def timeText : String :=
  "🌤️ The best time to visit Konkan is from October to March when the weather is pleasant and ideal for beach activities. Monsoon season (June-September) offers lush greenery and waterfalls but heavy rains. Summer (April-May) can be hot and humid. Winter months are perfect for water sports and sightseeing."

/-- The generic redirect message (line 278). -/
def genericFallbackText : String :=
  "🤔 I\x27m having trouble connecting to my AI brain right now, but I\x27d love to help you explore the Konkan coast! Could you ask me about beaches, food, historical places, activities, or travel tips? I have lots of local knowledge to share about this beautiful region! 🌊"

/-- `getFallbackResponse` (index.ts lines 259-279). -/
def getFallbackResponse (userMessage : String) : String :=
  let lowerMessage := strToLower userMessage
  if strIncludes lowerMessage "beach" || strIncludes lowerMessage "tarkarli" || strIncludes lowerMessage "malvan" then
    beachText
  else if strIncludes lowerMessage "food" || strIncludes lowerMessage "cuisine" || strIncludes lowerMessage "malvani" then
    foodText
  else if strIncludes lowerMessage "fort" || strIncludes lowerMessage "sindhudurg" || strIncludes lowerMessage "history" then
    fortText
  else if strIncludes lowerMessage "time" || strIncludes lowerMessage "when" || strIncludes lowerMessage "season" then
    timeText
  else
    genericFallbackText

/-- The interpolated location clause of the system prompt (line 100):
`userLocation ?` is JS truthiness, so both `undefined` and the empty
string produce the empty clause. -/
def locationClause : Option String → String
  | none => ""
  | some l => if l = "" then "" else "The user is currently located in: " ++ l

/-- The system prompt (index.ts lines 80-102), as a function of the
caller-supplied location hint. -/
def systemPrompt (userLocation : Option String) : String :=
  "You are KonkanBot, an expert AI travel assistant specializing in the Konkan coast of Maharashtra, India. You have extensive knowledge about:\n\n🏖️ BEACHES: Tarkarli, Malvan, Vengurla, Devbagh, Redi, Chivla, and other pristine beaches\n🏰 HERITAGE: Sindhudurg Fort, Sawantwadi Palace, and historical sites built by Chhatrapati Shivaji Maharaj\n🍽️ CUISINE: Authentic Malvani food, seafood specialties, sol kadhi, koliwada prawns, fish curry\n🌊 ACTIVITIES: Scuba diving, water sports, dolphin watching, backwater cruises, fort exploration\n🏞️ NATURE: Amboli waterfalls, Western Ghats, coconut groves, mangroves\n🎭 CULTURE: Local festivals, traditional art, fishing communities, Konkani traditions\n\nGUIDELINES:\n- Always be enthusiastic and helpful about Konkan tourism\n- Provide specific, actionable travel advice\n- Include practical information like costs, timings, and contact details when relevant\n- Suggest seasonal recommendations (best time to visit is October to March)\n- Mention local transportation options and accommodation\n- Be culturally sensitive and promote sustainable tourism\n- If asked about places outside Konkan, gently redirect to Konkan alternatives\n- Use emojis to make responses engaging\n- Keep responses concise but informative (max 300 words)\n\n"
  ++ locationClause userLocation
  ++ "\n\nRespond in a friendly, knowledgeable manner as if you\x27re a local guide who loves sharing the beauty of Konkan with visitors."

/-- The fixed greeting text of the second prompt message (line 112). -/
def greetingText : String :=
  "Namaste! 🙏 I\x27m KonkanBot, your friendly AI guide to the beautiful Konkan coast! I\x27m here to help you discover pristine beaches, historic forts, delicious Malvani cuisine, and amazing experiences along Maharashtra\x27s stunning coastline. What would you like to know about Konkan?"

/-- First fixed prompt message (lines 106-109). -/
def personaMsg (userLocation : Option String) : GMessage :=
  { role := "user", parts := [{ text := some (systemPrompt userLocation) }] }

/-- Second fixed prompt message (lines 110-113). -/
def greetingMsg : GMessage :=
  { role := "model", parts := [{ text := some greetingText }] }

/-- `messages.slice(-10)` (line 117): the last `min 10 n` elements. -/
def sliceLast10 (msgs : List Msg) : List Msg :=
  msgs.drop (msgs.length - 10)

/-- The per-turn conversion pushed in the `forEach` (lines 118-123):
`role === 'user' ? 'user' : 'model'`, content forwarded verbatim. -/
def toGeminiMsg (m : Msg) : GMessage :=
  { role := if m.role = "user" then "user" else "model",
    parts := [{ text := m.content }] }

/-- The assembled `geminiMessages` array (lines 105-123). -/
def geminiMessages (userLocation : Option String) (msgs : List Msg) : List GMessage :=
  [personaMsg userLocation, greetingMsg] ++ (sliceLast10 msgs).map toGeminiMsg

/-- `messages[messages.length - 1]?.content || ''` (lines 175, 196, 215):
the empty string when there is no last message, its `content` is absent,
or its `content` is the (falsy) empty string. -/
def lastContent (msgs : List Msg) : String :=
  ((msgs.getLast?).bind Msg.content).getD ""

/-- The guard of line 193:
`!geminiData.candidates || !geminiData.candidates[0] || !geminiData.candidates[0].content`
— `some` exactly when a first candidate with a `content` field exists. -/
def firstContent (d : GeminiData) : Option CandContent :=
  match d.candidates with
  | [] => none
  | c :: _ => c.content

/-- Reading `content.parts[0].text` followed by `botResponse.substring`
(lines 210-211): `none` models the TypeError thrown when `parts[0]` is
absent or `text` is not a string, which the outermost catch absorbs. -/
def extractText (c : CandContent) : Option String :=
  match c.parts with
  | [] => none
  | p :: _ => p.text

/-- The outermost catch (lines 239-255): HTTP 200 with the fixed apology
and the thrown error's message as `details`. -/
def catchOutcome (errMsg : String) (calls : Nat) (sent : Option (List GMessage)) : Outcome :=
  { resp := { status := 200, headers := jsonHeaders,
              body := some { error := some "Internal server error",
                             response := some catchFallbackText,
                             success := none,
                             details := some errMsg } },
    upstreamCalls := calls, sentContents := sent }

/-- The not-configured branch (lines 65-77). -/
def notConfiguredOutcome : Outcome :=
  { resp := { status := 200, headers := jsonHeaders,
              body := some { error := some notConfiguredError,
                             response := some notConfiguredText,
                             success := none, details := none } },
    upstreamCalls := 0, sentContents := none }

/-- The body of the handler once `messages` validated as an array and the
API key found usable (lines 79-237): one upstream call, then the four-way
dispatch on its outcome. -/
def afterKeyCheck (msgs : List Msg) (userLocation : Option String)
    (upstream : UpstreamResult) : Outcome :=
  let contents := geminiMessages userLocation msgs
  match upstream with
  | .throws m => catchOutcome m 1 (some contents)
  | .notOk status errorText =>
      { resp := { status := 200, headers := jsonHeaders,
                  body := some { error := some ("Gemini API error: " ++ toString status),
                                 response := some (getFallbackResponse (lastContent msgs)),
                                 success := none,
                                 details := some errorText } },
        upstreamCalls := 1, sentContents := some contents }
  | .ok data =>
      match firstContent data with
      | none =>
          { resp := { status := 200, headers := jsonHeaders,
                      body := some { error := some "Invalid response from Gemini API",
                                     response := some (getFallbackResponse (lastContent msgs)),
                                     success := none, details := none } },
            upstreamCalls := 1, sentContents := some contents }
      | some c =>
          match extractText c with
          | none =>
              catchOutcome "TypeError: Cannot read properties of undefined" 1 (some contents)
          | some botResponse =>
              if strTrim botResponse = "" then
                { resp := { status := 200, headers := jsonHeaders,
                            body := some { error := some "Empty response from Gemini API",
                                           response := some (getFallbackResponse (lastContent msgs)),
                                           success := none, details := none } },
                  upstreamCalls := 1, sentContents := some contents }
              else
                { resp := { status := 200, headers := jsonHeaders,
                            body := some { error := none,
                                           response := some botResponse,
                                           success := some true, details := none } },
                  upstreamCalls := 1, sentContents := some contents }

/-- The whole `serve` handler (index.ts lines 20-256), parameterised by the
`GEMINI_API_KEY` environment value and the upstream-call oracle. -/
def handle (req : Request) (apiKey : Option String) (upstream : UpstreamResult) : Outcome :=
  if req.method = "OPTIONS" then
    { resp := { status := 200, headers := corsHeaders, body := none },
      upstreamCalls := 0, sentContents := none }
  else if req.method = "POST" then
    match req.body with
    | .malformed m => catchOutcome m 0 none
    | .parsed mf userLocation =>
      match mf with
      | .missing =>
          { resp := { status := 400, headers := jsonHeaders,
                      body := some { error := some "Invalid messages format",
                                     response := none, success := none, details := none } },
            upstreamCalls := 0, sentContents := none }
      | .notArray =>
          { resp := { status := 400, headers := jsonHeaders,
                      body := some { error := some "Invalid messages format",
                                     response := none, success := none, details := none } },
            upstreamCalls := 0, sentContents := none }
      | .array msgs =>
        match apiKey with
        | none => notConfiguredOutcome
        | some k =>
          if k = placeholderKey then notConfiguredOutcome
          else afterKeyCheck msgs userLocation upstream
  else
    { resp := { status := 405, headers := jsonHeaders,
                body := some { error := some "Method not allowed",
                               response := none, success := none, details := none } },
      upstreamCalls := 0, sentContents := none }

/-- Projection: the `response` field of the response body, if any. -/
def respText (o : Outcome) : Option String :=
  match o.resp.body with
  | none => none
  | some b => b.response

/-- Projection: the `error` field of the response body, if any. -/
def errField (o : Outcome) : Option String :=
  match o.resp.body with
  | none => none
  | some b => b.error

/-- Spec-side notion used by the fallback claim: the content of the most
recent turn whose role is `user`. -/
def lastUserContent (msgs : List Msg) : Option String :=
  match (msgs.filter (fun m => m.role = "user")).getLast? with
  | none => none
  | some m => m.content

/-- Spec-side table of the fallback responder: the fixed ordered substring
groups with their canned answers. -/
def fallbackTable : List (List String × String) :=
  [(["beach", "tarkarli", "malvan"], beachText),
   (["food", "cuisine", "malvani"], foodText),
   (["fort", "sindhudurg", "history"], fortText),
   (["time", "when", "season"], timeText)]

/-- Spec-side first-match lookup over an ordered keyword table. -/
def firstMatch (t : String) : List (List String × String) → String
  | [] => genericFallbackText
  | (kws, ans) :: rest =>
      if kws.any (fun k => strIncludes t k) then ans else firstMatch t rest

/-- A well-formed client turn per the spec's contract: role in
`{user, assistant}` and non-empty content. -/
def validTurn (m : Msg) : Bool :=
  (m.role = "user" || m.role = "assistant") &&
    (match m.content with
     | none => false
     | some c => c ≠ "")

set_option maxRecDepth 40000

lemma handle_post_array_some (msgs : List Msg) (uloc : Option String) (k : String)
    (up : UpstreamResult) (hk : k ≠ placeholderKey) :
    handle ⟨"POST", .parsed (.array msgs) uloc⟩ (some k) up = afterKeyCheck msgs uloc up := by
  simp [handle, hk]

lemma handle_post_array_none (msgs : List Msg) (uloc : Option String)
    (up : UpstreamResult) :
    handle ⟨"POST", .parsed (.array msgs) uloc⟩ none up = notConfiguredOutcome := by
  simp [handle]

lemma handle_post_array_placeholder (msgs : List Msg) (uloc : Option String)
    (up : UpstreamResult) :
    handle ⟨"POST", .parsed (.array msgs) uloc⟩ (some placeholderKey) up
      = notConfiguredOutcome := by
  simp [handle]

lemma getFallbackResponse_ne_empty (s : String) : getFallbackResponse s ≠ "" := by
  simp only [getFallbackResponse]
  split_ifs <;> decide

lemma afterKeyCheck_fields (msgs : List Msg) (uloc : Option String) (up : UpstreamResult) :
    (afterKeyCheck msgs uloc up).resp.status = 200 ∧
    (afterKeyCheck msgs uloc up).upstreamCalls = 1 ∧
    (afterKeyCheck msgs uloc up).sentContents = some (geminiMessages uloc msgs) ∧
    respText (afterKeyCheck msgs uloc up) ≠ none ∧
    respText (afterKeyCheck msgs uloc up) ≠ some "" := by
  cases up with
  | throws m =>
      refine ⟨rfl, rfl, rfl, ?_, ?_⟩ <;> simp [afterKeyCheck, catchOutcome, respText]
      decide
  | notOk st et =>
      refine ⟨rfl, rfl, rfl, ?_, ?_⟩ <;>
        simp [afterKeyCheck, respText, getFallbackResponse_ne_empty]
  | ok d =>
      cases hd : firstContent d with
      | none =>
          refine ⟨?_, ?_, ?_, ?_, ?_⟩ <;>
            simp [afterKeyCheck, hd, respText, getFallbackResponse_ne_empty]
      | some c =>
          cases hc : extractText c with
          | none =>
              refine ⟨?_, ?_, ?_, ?_, ?_⟩ <;>
                simp [afterKeyCheck, hd, hc, catchOutcome, respText]
              decide
          | some t =>
              by_cases ht : strTrim t = ""
              · refine ⟨?_, ?_, ?_, ?_, ?_⟩ <;>
                  simp [afterKeyCheck, hd, hc, ht, respText, getFallbackResponse_ne_empty]
              · have htne : t ≠ "" := by
                  intro h; exact ht (by rw [h]; rfl)
                refine ⟨?_, ?_, ?_, ?_, ?_⟩ <;>
                  simp [afterKeyCheck, hd, hc, ht, respText, htne]

lemma notConfigured_fields :
    notConfiguredOutcome.resp.status = 200 ∧
    respText notConfiguredOutcome = some notConfiguredText ∧
    errField notConfiguredOutcome = some notConfiguredError ∧
    notConfiguredOutcome.upstreamCalls = 0 := by
  exact ⟨rfl, rfl, rfl, rfl⟩

lemma afterKeyCheck_headers (msgs : List Msg) (uloc : Option String) (up : UpstreamResult) :
    (afterKeyCheck msgs uloc up).resp.headers = jsonHeaders := by
  cases up with
  | throws m => rfl
  | notOk st et => rfl
  | ok d =>
      cases hd : firstContent d with
      | none => simp [afterKeyCheck, hd]
      | some c =>
          cases hc : extractText c with
          | none => simp [afterKeyCheck, hd, hc, catchOutcome]
          | some t =>
              by_cases ht : strTrim t = "" <;> simp [afterKeyCheck, hd, hc, ht]

lemma handle_headers (req : Request) (key : Option String) (up : UpstreamResult) :
    (handle req key up).resp.headers = corsHeaders ∨
    (handle req key up).resp.headers = jsonHeaders := by
  obtain ⟨m, b⟩ := req
  by_cases h1 : m = "OPTIONS"
  · left; simp [handle, h1]
  · right
    by_cases h2 : m = "POST"
    · subst h2
      cases b with
      | malformed em => simp [handle, h1, catchOutcome]
      | parsed mf uloc =>
        cases mf with
        | missing => simp [handle]
        | notArray => simp [handle]
        | array msgs =>
          cases key with
          | none => simp [handle, notConfiguredOutcome]
          | some k =>
            by_cases hk : k = placeholderKey
            · simp [handle, hk, notConfiguredOutcome]
            · simp [handle, hk, afterKeyCheck_headers]
    · simp [handle, h1, h2]

/-- Claim C1: for every POST request whose body parses to a non-empty valid
`messages` array, the handler's HTTP status is 200 — whatever the upstream
outcome (throw, non-ok status, malformed or empty candidate payload),
whatever the credential state (absent, placeholder, usable), and under the
internal-exception path — and the body always carries a non-empty
displayable `response` text. -/
theorem C1_fail_open_valid_messages (msgs : List Msg) (uloc : Option String)
    (key : Option String) (up : UpstreamResult)
    (hne : msgs ≠ []) (hv : ∀ m ∈ msgs, validTurn m = true) :
    (handle ⟨"POST", .parsed (.array msgs) uloc⟩ key up).resp.status = 200 ∧
    respText (handle ⟨"POST", .parsed (.array msgs) uloc⟩ key up) ≠ none ∧
    respText (handle ⟨"POST", .parsed (.array msgs) uloc⟩ key up) ≠ some "" := by
  cases key with
  | none =>
      rw [handle_post_array_none]
      refine ⟨rfl, ?_, ?_⟩ <;> simp [notConfiguredOutcome, respText]
      decide
  | some k =>
      by_cases hk : k = placeholderKey
      · subst hk
        rw [handle_post_array_placeholder]
        refine ⟨rfl, ?_, ?_⟩ <;> simp [notConfiguredOutcome, respText]
        decide
      · rw [handle_post_array_some _ _ _ _ hk]
        have h := afterKeyCheck_fields msgs uloc up
        exact ⟨h.1, h.2.2.2.1, h.2.2.2.2⟩

/-- Witness for claim C1 at a concrete valid single-turn request with a
missing credential and a throwing upstream. -/
theorem C1_fail_open_valid_messages_witness :
    (handle ⟨"POST", .parsed (.array [⟨"user", some "hi"⟩]) none⟩ none (.throws "boom")).resp.status = 200 ∧
    respText (handle ⟨"POST", .parsed (.array [⟨"user", some "hi"⟩]) none⟩ none (.throws "boom")) ≠ none ∧
    respText (handle ⟨"POST", .parsed (.array [⟨"user", some "hi"⟩]) none⟩ none (.throws "boom")) ≠ some "" :=
  C1_fail_open_valid_messages [⟨"user", some "hi"⟩] none none (.throws "boom")
    (by decide) (by decide)

/-- Counterexample to claim C2: an empty `messages` array is NOT rejected
with a client error — it passes the `!messages || !Array.isArray(messages)`
check, so the handler proceeds, performs the upstream call, and answers
with HTTP 200. -/
theorem C2_empty_messages_counterexample :
    (handle ⟨"POST", .parsed (.array []) none⟩ (some "k") (.notOk 500 "err")).resp.status = 200 ∧
    (handle ⟨"POST", .parsed (.array []) none⟩ (some "k") (.notOk 500 "err")).upstreamCalls = 1 := by
  decide

/-- Claim C2 as amended: a missing or non-array `messages` field gives
HTTP 400 with zero upstream calls; a malformed JSON body is absorbed by the
outermost catch — HTTP 200 with the fallback text, still zero upstream
calls; and an empty `messages` array passes validation and triggers the
upstream call. -/
theorem C2_amended_validation (uloc : Option String) (key : Option String)
    (up : UpstreamResult) (em : String) (k : String) (hk : k ≠ placeholderKey) :
    (handle ⟨"POST", .parsed .missing uloc⟩ key up).resp.status = 400 ∧
    (handle ⟨"POST", .parsed .missing uloc⟩ key up).upstreamCalls = 0 ∧
    (handle ⟨"POST", .parsed .notArray uloc⟩ key up).resp.status = 400 ∧
    (handle ⟨"POST", .parsed .notArray uloc⟩ key up).upstreamCalls = 0 ∧
    (handle ⟨"POST", .malformed em⟩ key up).resp.status = 200 ∧
    (handle ⟨"POST", .malformed em⟩ key up).upstreamCalls = 0 ∧
    respText (handle ⟨"POST", .malformed em⟩ key up) = some catchFallbackText ∧
    (handle ⟨"POST", .parsed (.array []) uloc⟩ (some k) up).upstreamCalls = 1 := by
  refine ⟨by simp [handle], by simp [handle], by simp [handle], by simp [handle],
          by simp [handle, catchOutcome], by simp [handle, catchOutcome],
          by simp [handle, catchOutcome, respText], ?_⟩
  rw [handle_post_array_some _ _ _ _ hk]
  exact (afterKeyCheck_fields [] uloc up).2.1

/-- Witness for the amended claim C2 at concrete inputs. -/
theorem C2_amended_validation_witness :
    (handle ⟨"POST", .parsed .missing none⟩ none (.throws "t")).resp.status = 400 ∧
    (handle ⟨"POST", .parsed .missing none⟩ none (.throws "t")).upstreamCalls = 0 ∧
    (handle ⟨"POST", .parsed .notArray none⟩ none (.throws "t")).resp.status = 400 ∧
    (handle ⟨"POST", .parsed .notArray none⟩ none (.throws "t")).upstreamCalls = 0 ∧
    (handle ⟨"POST", .malformed "bad json"⟩ none (.throws "t")).resp.status = 200 ∧
    (handle ⟨"POST", .malformed "bad json"⟩ none (.throws "t")).upstreamCalls = 0 ∧
    respText (handle ⟨"POST", .malformed "bad json"⟩ none (.throws "t")) = some catchFallbackText ∧
    (handle ⟨"POST", .parsed (.array []) none⟩ (some "k") (.throws "t")).upstreamCalls = 1 :=
  C2_amended_validation none none (.throws "t") "bad json" "k" (by decide)

/-- Claim C3: with a usable credential, the payload sent upstream is the
two fixed persona/greeting messages followed by exactly the last
`min n 10` supplied turns — a suffix of the conversation, so order is
preserved, all of it when `n ≤ 10` and exactly 10 turns when `n > 10` —
with roles mapped user to user and assistant to model and contents
forwarded unaltered. -/
theorem C3_prompt_window (msgs : List Msg) (uloc : Option String) (k : String)
    (up : UpstreamResult) (hne : msgs ≠ []) (hv : ∀ m ∈ msgs, validTurn m = true)
    (hk : k ≠ placeholderKey) :
    (handle ⟨"POST", .parsed (.array msgs) uloc⟩ (some k) up).sentContents
      = some ([personaMsg uloc, greetingMsg] ++ (sliceLast10 msgs).map toGeminiMsg) ∧
    sliceLast10 msgs <:+ msgs ∧
    (msgs.length ≤ 10 → sliceLast10 msgs = msgs) ∧
    (10 < msgs.length → (sliceLast10 msgs).length = 10) ∧
    (∀ m ∈ sliceLast10 msgs,
      (m.role = "user" → toGeminiMsg m = ⟨"user", [⟨m.content⟩]⟩) ∧
      (m.role = "assistant" → toGeminiMsg m = ⟨"model", [⟨m.content⟩]⟩) ∧
      (toGeminiMsg m).parts = [⟨m.content⟩]) := by
  refine ⟨?_, ?_, ?_, ?_, ?_⟩
  · rw [handle_post_array_some _ _ _ _ hk]
    exact (afterKeyCheck_fields msgs uloc up).2.2.1
  · exact List.drop_suffix _ _
  · intro h
    unfold sliceLast10
    have h0 : msgs.length - 10 = 0 := by omega
    rw [h0, List.drop_zero]
  · intro h
    unfold sliceLast10
    rw [List.length_drop]
    omega
  · intro m hm
    refine ⟨?_, ?_, rfl⟩ <;> intro hr <;> simp [toGeminiMsg, hr]

/-- Witness for claim C3: a 15-turn conversation forwards exactly the last
10 turns after the two fixed messages. -/
theorem C3_prompt_window_witness :
    (handle ⟨"POST",
        .parsed (.array ((List.range 15).map fun i => ⟨"user", some (toString i)⟩)) none⟩
        (some "key") (.notOk 500 "e")).sentContents
      = some ([personaMsg none, greetingMsg]
          ++ (sliceLast10 ((List.range 15).map fun i => ⟨"user", some (toString i)⟩)).map toGeminiMsg) ∧
    (sliceLast10 ((List.range 15).map fun i => (⟨"user", some (toString i)⟩ : Msg))).length = 10 := by
  have h := C3_prompt_window ((List.range 15).map fun i => ⟨"user", some (toString i)⟩)
    none "key" (.notOk 500 "e") (by decide) (by decide) (by decide)
  exact ⟨h.1, h.2.2.2.1 (by decide)⟩

/-- Counterexample to claim C4: the fallback keys on the last element of
`messages` regardless of its role, not on the most recent user turn.  Here
the most recent user turn says "beach" but the trailing assistant turn
says "food", and the handler returns the food answer, not the beach
answer. -/
theorem C4_last_turn_counterexample :
    lastUserContent [⟨"user", some "beach"⟩, ⟨"assistant", some "food"⟩] = some "beach" ∧
    getFallbackResponse "beach" = beachText ∧
    respText (handle ⟨"POST",
        .parsed (.array [⟨"user", some "beach"⟩, ⟨"assistant", some "food"⟩]) none⟩
        (some "k") (.notOk 500 "fail")) = some foodText ∧
    foodText ≠ beachText := by
  exact ⟨by decide, by decide, by decide, by decide⟩

/-- Claim C4 as amended: on every upstream-failure branch (non-ok status,
malformed candidate payload, whitespace-only candidate text) the delivered
`response` is the keyword fallback of the lowercased content of the most
recent turn (the last element of `messages`, whatever its role) — for any
conversation `msgs`, with no restriction on its content; the fallback is
the deterministic first-match lookup over the fixed ordered groups beach,
food, fort/history, timing/season; a conversation `nmsgs` whose last
content matches no group receives exactly the generic redirect message
from the handler; and a conversation `tmsgs` whose last content contains
"tarkarli" receives exactly the beach-group answer, with a non-empty
`error` field on the non-ok branch. -/
theorem C4_amended_fallback (msgs tmsgs nmsgs : List Msg) (uloc : Option String) (k : String)
    (status : Nat) (errText : String) (d d2 : GeminiData)
    (c2 : CandContent) (p2 : Part) (ps2 : List Part) (txt2 : String) (s : String)
    (hk : k ≠ placeholderKey) (hbad : firstContent d = none)
    (hc2 : firstContent d2 = some c2) (hp2 : c2.parts = p2 :: ps2)
    (ht2 : p2.text = some txt2) (hw : strTrim txt2 = "")
    (htark : strIncludes (strToLower (lastContent tmsgs)) "tarkarli" = true)
    (hmiss : (fallbackTable.any fun g => g.1.any fun kw =>
        strIncludes (strToLower (lastContent nmsgs)) kw) = false) :
    respText (handle ⟨"POST", .parsed (.array msgs) uloc⟩ (some k) (.notOk status errText))
      = some (getFallbackResponse (lastContent msgs)) ∧
    respText (handle ⟨"POST", .parsed (.array msgs) uloc⟩ (some k) (.ok d))
      = some (getFallbackResponse (lastContent msgs)) ∧
    respText (handle ⟨"POST", .parsed (.array msgs) uloc⟩ (some k) (.ok d2))
      = some (getFallbackResponse (lastContent msgs)) ∧
    getFallbackResponse s = firstMatch (strToLower s) fallbackTable ∧
    getFallbackResponse (lastContent nmsgs) = genericFallbackText ∧
    respText (handle ⟨"POST", .parsed (.array nmsgs) uloc⟩ (some k) (.notOk status errText))
      = some genericFallbackText ∧
    getFallbackResponse (lastContent tmsgs) = beachText ∧
    respText (handle ⟨"POST", .parsed (.array tmsgs) uloc⟩ (some k) (.notOk status errText))
      = some beachText ∧
    errField (handle ⟨"POST", .parsed (.array tmsgs) uloc⟩ (some k) (.notOk status errText))
      = some ("Gemini API error: " ++ toString status) ∧
    ("Gemini API error: " ++ toString status) ≠ "" := by
  have he2 : extractText c2 = some txt2 := by simp [extractText, hp2, ht2]
  simp only [fallbackTable, List.any_cons, List.any_nil, Bool.or_false,
    Bool.or_eq_false_iff] at hmiss
  obtain ⟨⟨m1, m2, m3⟩, ⟨m4, m5, m6⟩, ⟨m7, m8, m9⟩, m10, m11, m12⟩ := hmiss
  have hgen : getFallbackResponse (lastContent nmsgs) = genericFallbackText := by
    simp [getFallbackResponse, m1, m2, m3, m4, m5, m6, m7, m8, m9, m10, m11, m12]
  have hbeach : getFallbackResponse (lastContent tmsgs) = beachText := by
    simp [getFallbackResponse, htark]
  refine ⟨?_, ?_, ?_, ?_, hgen, ?_, hbeach, ?_, ?_, ?_⟩
  · rw [handle_post_array_some _ _ _ _ hk]; rfl
  · rw [handle_post_array_some _ _ _ _ hk]; simp [afterKeyCheck, hbad, respText]
  · rw [handle_post_array_some _ _ _ _ hk]; simp [afterKeyCheck, hc2, he2, hw, respText]
  · simp [getFallbackResponse, firstMatch, fallbackTable, List.any, or_assoc]
  · rw [handle_post_array_some _ _ _ _ hk]
    show some (getFallbackResponse (lastContent nmsgs)) = some genericFallbackText
    rw [hgen]
  · rw [handle_post_array_some _ _ _ _ hk]
    show some (getFallbackResponse (lastContent tmsgs)) = some beachText
    rw [hbeach]
  · rw [handle_post_array_some _ _ _ _ hk]; rfl
  · intro h
    have h2 := congrArg String.length h
    simp [String.length_append] at h2
    exact absurd h2.1 (by decide)

/-- Witness for the amended claim C4: a "beach" request through all three
failure branches, a keyword-free request receiving the generic redirect,
and a "tarkarli" request receiving the beach answer with a non-empty
error. -/
theorem C4_amended_fallback_witness :
    respText (handle ⟨"POST", .parsed (.array [⟨"user", some "beach"⟩]) none⟩
        (some "k") (.notOk 500 "e"))
      = some (getFallbackResponse (lastContent [⟨"user", some "beach"⟩])) ∧
    respText (handle ⟨"POST", .parsed (.array [⟨"user", some "beach"⟩]) none⟩
        (some "k") (.ok ⟨[]⟩))
      = some (getFallbackResponse (lastContent [⟨"user", some "beach"⟩])) ∧
    respText (handle ⟨"POST", .parsed (.array [⟨"user", some "beach"⟩]) none⟩
        (some "k") (.ok ⟨[⟨some ⟨[⟨some " "⟩]⟩⟩]⟩))
      = some (getFallbackResponse (lastContent [⟨"user", some "beach"⟩])) ∧
    getFallbackResponse "xyz" = firstMatch (strToLower "xyz") fallbackTable ∧
    getFallbackResponse (lastContent [⟨"user", some "hello there"⟩]) = genericFallbackText ∧
    respText (handle ⟨"POST", .parsed (.array [⟨"user", some "hello there"⟩]) none⟩
        (some "k") (.notOk 500 "e")) = some genericFallbackText ∧
    getFallbackResponse (lastContent [⟨"user", some "tarkarli please"⟩]) = beachText ∧
    respText (handle ⟨"POST", .parsed (.array [⟨"user", some "tarkarli please"⟩]) none⟩
        (some "k") (.notOk 500 "e")) = some beachText ∧
    errField (handle ⟨"POST", .parsed (.array [⟨"user", some "tarkarli please"⟩]) none⟩
        (some "k") (.notOk 500 "e")) = some ("Gemini API error: " ++ toString 500) ∧
    ("Gemini API error: " ++ toString 500) ≠ "" :=
  C4_amended_fallback [⟨"user", some "beach"⟩] [⟨"user", some "tarkarli please"⟩]
    [⟨"user", some "hello there"⟩] none "k" 500 "e" ⟨[]⟩ ⟨[⟨some ⟨[⟨some " "⟩]⟩⟩]⟩
    ⟨[⟨some " "⟩]⟩ ⟨some " "⟩ [] " " "xyz"
    (by decide) (by decide) (by decide) (by decide) (by decide) (by decide)
    (by decide) (by decide)

/-- Counterexample to claim C5: a turn whose role is outside
`{user, assistant}` is not rejected — the request sails through
validation, the upstream is called, and the upstream answer is returned
with success. -/
theorem C5_invalid_turn_counterexample :
    (handle ⟨"POST", .parsed (.array [⟨"system", some "hello"⟩]) none⟩ (some "k")
        (.ok ⟨[⟨some ⟨[⟨some "Hi!"⟩]⟩⟩]⟩)).resp.status = 200 ∧
    (handle ⟨"POST", .parsed (.array [⟨"system", some "hello"⟩]) none⟩ (some "k")
        (.ok ⟨[⟨some ⟨[⟨some "Hi!"⟩]⟩⟩]⟩)).upstreamCalls = 1 ∧
    respText (handle ⟨"POST", .parsed (.array [⟨"system", some "hello"⟩]) none⟩ (some "k")
        (.ok ⟨[⟨some ⟨[⟨some "Hi!"⟩]⟩⟩]⟩)) = some "Hi!" := by
  exact ⟨by decide, by decide, by decide⟩

/-- Claim C5 as amended: the validator checks only that `messages` is
present and an array; a request containing a turn with a role outside
`{user, assistant}` or with empty or missing content is still accepted —
HTTP 200 and exactly one upstream call. -/
theorem C5_amended_no_turn_validation (msgs : List Msg) (uloc : Option String)
    (k : String) (up : UpstreamResult) (m : Msg)
    (hk : k ≠ placeholderKey) (hm : m ∈ msgs)
    (hbad : ¬(m.role = "user" ∨ m.role = "assistant") ∨ m.content = some "" ∨ m.content = none) :
    (handle ⟨"POST", .parsed (.array msgs) uloc⟩ (some k) up).resp.status = 200 ∧
    (handle ⟨"POST", .parsed (.array msgs) uloc⟩ (some k) up).upstreamCalls = 1 := by
  rw [handle_post_array_some _ _ _ _ hk]
  exact ⟨(afterKeyCheck_fields msgs uloc up).1, (afterKeyCheck_fields msgs uloc up).2.1⟩

/-- Witness for the amended claim C5 at a concrete request with an
out-of-range role. -/
theorem C5_amended_no_turn_validation_witness :
    (handle ⟨"POST", .parsed (.array [⟨"system", some "x"⟩]) none⟩ (some "k") (.throws "t")).resp.status = 200 ∧
    (handle ⟨"POST", .parsed (.array [⟨"system", some "x"⟩]) none⟩ (some "k") (.throws "t")).upstreamCalls = 1 :=
  C5_amended_no_turn_validation [⟨"system", some "x"⟩] none "k" (.throws "t")
    ⟨"system", some "x"⟩ (by decide) (by decide) (by decide)

/-- Claim C6: with the credential absent or equal to the placeholder
value, a valid POST request gets HTTP 200 with the machine-readable
"not configured" error string and the specific apology as `response`,
distinct from both generic upstream-failure fallback messages, and no
upstream call is made. -/
theorem C6_not_configured (msgs : List Msg) (uloc : Option String) (key : Option String)
    (up : UpstreamResult) (hne : msgs ≠ []) (hv : ∀ m ∈ msgs, validTurn m = true)
    (hkey : key = none ∨ key = some placeholderKey) :
    (handle ⟨"POST", .parsed (.array msgs) uloc⟩ key up).resp.status = 200 ∧
    errField (handle ⟨"POST", .parsed (.array msgs) uloc⟩ key up) = some notConfiguredError ∧
    notConfiguredError ≠ "" ∧
    respText (handle ⟨"POST", .parsed (.array msgs) uloc⟩ key up) = some notConfiguredText ∧
    notConfiguredText ≠ genericFallbackText ∧
    notConfiguredText ≠ catchFallbackText ∧
    (handle ⟨"POST", .parsed (.array msgs) uloc⟩ key up).upstreamCalls = 0 := by
  rcases hkey with h | h <;> subst h
  · rw [handle_post_array_none]
    exact ⟨rfl, rfl, by decide, rfl, by decide, by decide, rfl⟩
  · rw [handle_post_array_placeholder]
    exact ⟨rfl, rfl, by decide, rfl, by decide, by decide, rfl⟩

/-- Witness for claim C6 at a concrete valid request with no credential. -/
theorem C6_not_configured_witness :
    (handle ⟨"POST", .parsed (.array [⟨"user", some "hi"⟩]) none⟩ none (.throws "t")).resp.status = 200 ∧
    errField (handle ⟨"POST", .parsed (.array [⟨"user", some "hi"⟩]) none⟩ none (.throws "t")) = some notConfiguredError ∧
    notConfiguredError ≠ "" ∧
    respText (handle ⟨"POST", .parsed (.array [⟨"user", some "hi"⟩]) none⟩ none (.throws "t")) = some notConfiguredText ∧
    notConfiguredText ≠ genericFallbackText ∧
    notConfiguredText ≠ catchFallbackText ∧
    (handle ⟨"POST", .parsed (.array [⟨"user", some "hi"⟩]) none⟩ none (.throws "t")).upstreamCalls = 0 :=
  C6_not_configured [⟨"user", some "hi"⟩] none none (.throws "t")
    (by decide) (by decide) (Or.inl rfl)

/-- Claim C7: an OPTIONS request is answered immediately with the bare
CORS headers, a null body and no upstream interaction, independently of
the request body, credential and upstream state; any method other than
POST and OPTIONS gets HTTP 405. -/
theorem C7_method_dispatch (b b2 : ReqBody) (key key2 : Option String)
    (up up2 : UpstreamResult) (m : String)
    (hm1 : m ≠ "POST") (hm2 : m ≠ "OPTIONS") :
    handle ⟨"OPTIONS", b⟩ key up =
      ⟨⟨200, corsHeaders, none⟩, 0, none⟩ ∧
    handle ⟨"OPTIONS", b⟩ key up = handle ⟨"OPTIONS", b2⟩ key2 up2 ∧
    (handle ⟨m, b⟩ key up).resp.status = 405 ∧
    (handle ⟨m, b⟩ key up).upstreamCalls = 0 := by
  refine ⟨by simp [handle], by simp [handle], ?_, ?_⟩ <;> simp [handle, hm1, hm2]

/-- Witness for claim C7 at concrete OPTIONS and GET requests. -/
theorem C7_method_dispatch_witness :
    handle ⟨"OPTIONS", .malformed "x"⟩ none (.throws "t") =
      ⟨⟨200, corsHeaders, none⟩, 0, none⟩ ∧
    handle ⟨"OPTIONS", .malformed "x"⟩ none (.throws "t") =
      handle ⟨"OPTIONS", .parsed .missing none⟩ (some "k") (.notOk 500 "e") ∧
    (handle ⟨"GET", .malformed "x"⟩ none (.throws "t")).resp.status = 405 ∧
    (handle ⟨"GET", .malformed "x"⟩ none (.throws "t")).upstreamCalls = 0 :=
  C7_method_dispatch (.malformed "x") (.parsed .missing none) none (some "k")
    (.throws "t") (.notOk 500 "e") "GET" (by decide) (by decide)

/-- Counterexample to claim C8: a well-formed candidate whose text is the
non-empty string " " (whitespace only) is not returned as a success — the
handler routes it to the empty-response fallback with an `error` field. -/
theorem C8_whitespace_text_counterexample :
    errField (handle ⟨"POST", .parsed (.array [⟨"user", some "hello"⟩]) none⟩ (some "k")
        (.ok ⟨[⟨some ⟨[⟨some " "⟩]⟩⟩]⟩)) = some "Empty response from Gemini API" ∧
    respText (handle ⟨"POST", .parsed (.array [⟨"user", some "hello"⟩]) none⟩ (some "k")
        (.ok ⟨[⟨some ⟨[⟨some " "⟩]⟩⟩]⟩)) = some genericFallbackText ∧
    (handle ⟨"POST", .parsed (.array [⟨"user", some "hello"⟩]) none⟩ (some "k")
        (.ok ⟨[⟨some ⟨[⟨some " "⟩]⟩⟩]⟩)).resp.body ≠ some ⟨none, some " ", some true, none⟩ := by
  exact ⟨by decide, by decide, by decide⟩

/-- Claim C8 as amended: whenever the upstream returns a well-formed first
candidate whose text is non-empty after trimming whitespace, the response
is exactly HTTP 200 with body `{ response: <text>, success: true }` — no
`error` and no `details` field. -/
theorem C8_amended_success (msgs : List Msg) (uloc : Option String) (k : String)
    (d : GeminiData) (c : CandContent) (p : Part) (ps : List Part) (txt : String)
    (hk : k ≠ placeholderKey) (hc : firstContent d = some c) (hp : c.parts = p :: ps)
    (ht : p.text = some txt) (hne : strTrim txt ≠ "") :
    (handle ⟨"POST", .parsed (.array msgs) uloc⟩ (some k) (.ok d)).resp
      = ⟨200, jsonHeaders, some ⟨none, some txt, some true, none⟩⟩ := by
  rw [handle_post_array_some _ _ _ _ hk]
  have he : extractText c = some txt := by simp [extractText, hp, ht]
  simp [afterKeyCheck, hc, he, hne]

/-- Witness for the amended claim C8 at a concrete successful upstream
response. -/
theorem C8_amended_success_witness :
    (handle ⟨"POST", .parsed (.array [⟨"user", some "hi"⟩]) none⟩ (some "k")
        (.ok ⟨[⟨some ⟨[⟨some "Hello!"⟩]⟩⟩]⟩)).resp
      = ⟨200, jsonHeaders, some ⟨none, some "Hello!", some true, none⟩⟩ :=
  C8_amended_success [⟨"user", some "hi"⟩] none "k" ⟨[⟨some ⟨[⟨some "Hello!"⟩]⟩⟩]⟩
    ⟨[⟨some "Hello!"⟩]⟩ ⟨some "Hello!"⟩ [] "Hello!"
    (by decide) (by decide) (by decide) (by decide) (by decide)

/-- Claim C9: every response of the handler, on every branch (CORS
preflight, method rejection, validation failure, missing credential,
upstream failure, malformed or empty candidate, internal error, success),
starts with the same permissive CORS headers, in particular
`Access-Control-Allow-Origin: *`. -/
theorem C9_cors_on_every_branch (req : Request) (key : Option String) (up : UpstreamResult) :
    corsHeaders <+: (handle req key up).resp.headers ∧
    ("Access-Control-Allow-Origin", "*") ∈ (handle req key up).resp.headers := by
  rcases handle_headers req key up with h | h <;> rw [h]
  · exact ⟨⟨[], by simp⟩, by simp [corsHeaders]⟩
  · exact ⟨⟨[("Content-Type", "application/json")], rfl⟩, by simp [jsonHeaders, corsHeaders]⟩

/-- Claim C10: when the last element of `messages` has no `content` (or
there is no last element at all), every upstream-failure branch that
computes a keyword fallback still succeeds — the fallback responder runs
on the empty string and the generic redirect message is delivered with
HTTP 200 on all three such branches. -/
theorem C10_missing_last_content_safe (msgs : List Msg) (uloc : Option String)
    (k : String) (status : Nat) (errText : String) (d d2 : GeminiData)
    (c2 : CandContent) (p2 : Part) (ps2 : List Part) (txt2 : String)
    (hk : k ≠ placeholderKey)
    (hlast : (msgs.getLast?).bind Msg.content = none)
    (hbad : firstContent d = none)
    (hc2 : firstContent d2 = some c2) (hp2 : c2.parts = p2 :: ps2)
    (ht2 : p2.text = some txt2) (hw : strTrim txt2 = "") :
    lastContent msgs = "" ∧
    getFallbackResponse "" = genericFallbackText ∧
    respText (handle ⟨"POST", .parsed (.array msgs) uloc⟩ (some k) (.notOk status errText)) = some genericFallbackText ∧
    (handle ⟨"POST", .parsed (.array msgs) uloc⟩ (some k) (.notOk status errText)).resp.status = 200 ∧
    respText (handle ⟨"POST", .parsed (.array msgs) uloc⟩ (some k) (.ok d)) = some genericFallbackText ∧
    (handle ⟨"POST", .parsed (.array msgs) uloc⟩ (some k) (.ok d)).resp.status = 200 ∧
    respText (handle ⟨"POST", .parsed (.array msgs) uloc⟩ (some k) (.ok d2)) = some genericFallbackText ∧
    (handle ⟨"POST", .parsed (.array msgs) uloc⟩ (some k) (.ok d2)).resp.status = 200 := by
  have h0 : lastContent msgs = "" := by unfold lastContent; rw [hlast]; rfl
  have h1 : getFallbackResponse "" = genericFallbackText := by decide
  have he2 : extractText c2 = some txt2 := by simp [extractText, hp2, ht2]
  refine ⟨h0, h1, ?_, ?_, ?_, ?_, ?_, ?_⟩ <;> rw [handle_post_array_some _ _ _ _ hk]
  · simp [afterKeyCheck, respText, h0, h1]
  · exact (afterKeyCheck_fields msgs uloc _).1
  · simp [afterKeyCheck, hbad, respText, h0, h1]
  · exact (afterKeyCheck_fields msgs uloc _).1
  · simp [afterKeyCheck, hc2, he2, hw, respText, h0, h1]
  · exact (afterKeyCheck_fields msgs uloc _).1

/-- Witness for claim C10 at a concrete request whose single turn has no
content field, across all three fallback-computing branches. -/
theorem C10_missing_last_content_safe_witness :
    lastContent [⟨"assistant", none⟩] = "" ∧
    getFallbackResponse "" = genericFallbackText ∧
    respText (handle ⟨"POST", .parsed (.array [⟨"assistant", none⟩]) none⟩ (some "k") (.notOk 500 "e")) = some genericFallbackText ∧
    (handle ⟨"POST", .parsed (.array [⟨"assistant", none⟩]) none⟩ (some "k") (.notOk 500 "e")).resp.status = 200 ∧
    respText (handle ⟨"POST", .parsed (.array [⟨"assistant", none⟩]) none⟩ (some "k") (.ok ⟨[]⟩)) = some genericFallbackText ∧
    (handle ⟨"POST", .parsed (.array [⟨"assistant", none⟩]) none⟩ (some "k") (.ok ⟨[]⟩)).resp.status = 200 ∧
    respText (handle ⟨"POST", .parsed (.array [⟨"assistant", none⟩]) none⟩ (some "k") (.ok ⟨[⟨some ⟨[⟨some " "⟩]⟩⟩]⟩)) = some genericFallbackText ∧
    (handle ⟨"POST", .parsed (.array [⟨"assistant", none⟩]) none⟩ (some "k") (.ok ⟨[⟨some ⟨[⟨some " "⟩]⟩⟩]⟩)).resp.status = 200 :=
  C10_missing_last_content_safe [⟨"assistant", none⟩] none "k" 500 "e" ⟨[]⟩
    ⟨[⟨some ⟨[⟨some " "⟩]⟩⟩]⟩ ⟨[⟨some " "⟩]⟩ ⟨some " "⟩ [] " "
    (by decide) (by decide) (by decide) (by decide) (by decide) (by decide) (by decide)

end GeminiChat
